import Mathlib

/-!
Shallow embedding of the "Aries" demo fintech backend (Express + mock
services) and proofs about its specified behaviour.

Conventions used throughout:
* JavaScript numbers are idealised as rationals or reals (`ℚ`/`ℝ`);
  floating-point rounding is out of scope.
* `Math.random()` draws, `Date.now()` timestamps, and results of
  third-party calls (jwt, ethers) are passed in explicitly as parameters,
  making every function a pure function of its inputs.
* HTTP responses are modelled as status/body records; `console.log`
  side effects are dropped.
-/

namespace Aries

/-! ### Request model and authentication middleware (backend/src/middleware/auth.js and server.js) -/

/-- The user object a middleware attaches to `req.user`. -/
structure AppUser where
  id : String
  email : String
  name : Option String
deriving DecidableEq

/-- The slice of an Express request the auth middleware reads and writes:
the `x-auth-token` header and the `user` property. -/
structure Request where
  xAuthToken : Option String
  user : Option AppUser
deriving DecidableEq

/-- Outcome of running one middleware: either control passes to the next
handler with the (possibly updated) request, or a response is sent. -/
inductive MwResult where
  | next (req : Request)
  | respond (status : Nat) (message : String)
deriving DecidableEq

/-- The stubbed demo user injected by the hackathon-demo middleware. -/
def demoUser : AppUser :=
  { id := "demo_user_123", email := "demo@example.com", name := some "Demo User" }

/-- The mock user created by the development-mode middleware variant. -/
def mockUser : AppUser :=
  { id := "mock_user_id", email := "demo@example.com", name := none }

/-- First auth middleware variant ("HACKATHON DEMO MODE"): unconditionally
attaches `demoUser` to `req.user` and calls `next()`; the token checks are
commented out in the source. -/
def authDemoMiddleware (req : Request) : MwResult :=
  MwResult.next { req with user := some demoUser }

/-- Second auth middleware variant: reads the `x-auth-token` header and
rejects with 401 when it is absent; with a token present it attaches a mock
user in development mode, and otherwise runs `jwt.verify` (modelled as the
`jwtVerify` parameter) and rejects with 401 on verification failure. -/
def authDevMiddleware (isDevelopment : Bool)
    (jwtVerify : String → Except String AppUser) (req : Request) : MwResult :=
  match req.xAuthToken with
  | none => MwResult.respond 401 "No token, authorization denied"
  | some token =>
    if isDevelopment then
      MwResult.next { req with user := some mockUser }
    else
      match jwtVerify token with
      | Except.ok u => MwResult.next { req with user := some u }
      | Except.error _ => MwResult.respond 401 "Token is not valid"

/-- The global middleware installed with `app.use` in server.js: injects the
demo user into every request and calls `next()`. -/
def serverAuthBypass (req : Request) : MwResult :=
  MwResult.next { req with user := some demoUser }

/-! ### Error-handling middleware (server.js) -/

/-- A thrown JavaScript error, as seen by the Express error handler. -/
structure JsError where
  name : String
  message : String
deriving DecidableEq

/-- An HTTP response from the error handler: status, `message` field, and
the extra `error`/`warning` detail field when one is set. -/
structure ErrResp where
  status : Nat
  message : String
  detail : Option String
deriving DecidableEq

/-- The Express error-handling middleware from server.js: MongoDB errors
(`err.name` of `MongoError` or `MongoNetworkError`) are answered with
HTTP 200 and a warning; every other error is answered with HTTP 500,
message "Something went wrong!", and the error text only in development. -/
def errorHandler (err : JsError) (nodeEnv : String) : ErrResp :=
  if err.name = "MongoError" ∨ err.name = "MongoNetworkError" then
    { status := 200
      message := "Operation succeeded (memory-only mode)"
      detail := some "Database unavailable, changes will not persist" }
  else
    { status := 500
      message := "Something went wrong!"
      detail := some (if nodeEnv = "development" then err.message else "Internal server error") }

/-- The catch block shared by every handler of privacy.controller.js
(generateProof at lines 78-81 and the other four): log the error and
respond 500 with the generic message "Server error" and the error text.
It runs for every caught error, whatever its name — a MongoDB error thrown
inside a controller is answered here with 500, never reaching the global
middleware's 200 path. -/
def privacyCatchHandler (err : JsError) : ErrResp :=
  { status := 500, message := "Server error", detail := some err.message }

/-! ### Proof-generation validation (backend/src/controllers/privacy.controller.js) -/

/-- A field of the JSON `statement` object as the validation code sees it:
absent (`undefined`), a truthy non-numeric value (for which `isNaN` holds),
or a number. -/
inductive JField where
  | absent
  | nonNumeric
  | num (q : ℚ)
deriving DecidableEq

/-- The JavaScript test `!x || isNaN(x)` applied to a field: true for an
absent field, for a non-numeric value, and — because `!0` is `true` in
JavaScript — also for the number 0. -/
def JField.failsCheck : JField → Bool
  | JField.absent => true
  | JField.nonNumeric => true
  | JField.num q => decide (q = 0)

/-- The numeric value of a field after `Number(...)` conversion (0 for the
non-numeric cases, which the code never converts). -/
def JField.toQ : JField → ℚ
  | JField.num q => q
  | _ => 0

/-- The request-body `statement` object of POST /api/privacy/generate-proof. -/
structure StatementObj where
  stype : Option String
  value : JField
  min : JField
  max : JField
deriving DecidableEq

/-- The call the controller forwards to the proof service when validation
passes. -/
inductive ProofCall where
  | equalityCall (userId : String) (value : ℚ)
  | rangeCall (userId : String) (value low high : ℚ)
deriving DecidableEq

/-- Outcome of the controller's validation phase: an HTTP rejection, or a
forwarded proof-service call. -/
inductive GenOutcome where
  | reject (status : Nat) (message : String)
  | forward (call : ProofCall)
deriving DecidableEq

/-- The validation logic of `generateProof`, line by line: missing statement,
then per-type checks with `!x || isNaN(x)` field tests, the `min >= max`
test for range proofs, and a 400 for unknown types. -/
def generateProof (userId : String) (statement : Option StatementObj) : GenOutcome :=
  match statement with
  | none => GenOutcome.reject 400 "Valid statement object is required"
  | some s =>
    if s.stype = some "equality" then
      if s.value.failsCheck then
        GenOutcome.reject 400 "Valid numeric value is required for equality proof"
      else
        GenOutcome.forward (ProofCall.equalityCall userId s.value.toQ)
    else if s.stype = some "range" then
      if s.min.failsCheck ∨ s.max.failsCheck then
        GenOutcome.reject 400 "Valid min and max values are required for range proof"
      else if s.min.toQ ≥ s.max.toQ then
        GenOutcome.reject 400 "Min value must be less than max value"
      else if s.value.failsCheck then
        GenOutcome.reject 400 "Valid numeric value is required for range proof"
      else
        GenOutcome.forward (ProofCall.rangeCall userId s.value.toQ s.min.toQ s.max.toQ)
    else
      GenOutcome.reject 400 "Invalid proof type. Supported types: equality, range"

/-- The claim's description of when the endpoint rejects with 400: the
statement is missing, its type is invalid, a required numeric field is
missing or non-numeric, or min >= max. (Written from the claim's words,
to be compared with `generateProof`.) -/
def claimRejects (statement : Option StatementObj) : Bool :=
  match statement with
  | none => true
  | some s =>
    if s.stype = some "equality" then
      match s.value with
      | JField.num _ => false
      | _ => true
    else if s.stype = some "range" then
      match s.value, s.min, s.max with
      | JField.num _, JField.num lo, JField.num hi => decide (lo ≥ hi)
      | _, _, _ => true
    else true

/-- The amended rejection condition actually implemented: a required field
also counts as invalid when it equals 0 (JavaScript falsiness), and for
range proofs the code rejects exactly when value, min or max fails the
`!x || isNaN(x)` test or min >= max holds of the converted values. -/
def codeRejects (statement : Option StatementObj) : Bool :=
  match statement with
  | none => true
  | some s =>
    if s.stype = some "equality" then
      s.value.failsCheck
    else if s.stype = some "range" then
      s.value.failsCheck || s.min.failsCheck || s.max.failsCheck || decide (s.min.toQ ≥ s.max.toQ)
    else true

end Aries

namespace Aries

/-- Helper shared by the error-handling claims: every rejection produced by
the generate-proof validation carries HTTP status 400. -/
lemma generateProof_reject_status (userId : String) (st : Option StatementObj)
    (s : Nat) (m : String) (h : generateProof userId st = GenOutcome.reject s m) :
    s = 400 := by
  cases st with
  | none =>
    simp only [generateProof] at h
    cases h
    rfl
  | some stmt =>
    simp only [generateProof] at h
    split_ifs at h <;> cases h <;> rfl

end Aries

namespace Aries

/-- C1 counterexample: the second auth middleware variant rejects a request
carrying no x-auth-token header with HTTP 401, even in development mode, so
it is not the case that token validation is bypassed for every request. -/
theorem c1_missing_token_is_rejected :
    authDevMiddleware true (fun _ => Except.error "unused")
      { xAuthToken := none, user := none } =
      MwResult.respond 401 "No token, authorization denied" := rfl

/-- C1 (amended): the demo-bypass middleware and the global server middleware
attach the stubbed demo user to every request and never reject; the
development-mode middleware variant attaches a mock user whenever a token
header is present, but rejects token-less requests with HTTP 401. -/
theorem c1_auth_middleware_behaviour :
    (∀ req, authDemoMiddleware req = MwResult.next { req with user := some demoUser }) ∧
    (∀ req, serverAuthBypass req = MwResult.next { req with user := some demoUser }) ∧
    (∀ jv tok u, authDevMiddleware true jv { xAuthToken := some tok, user := u } =
      MwResult.next { xAuthToken := some tok, user := some mockUser }) ∧
    (∀ jv u, authDevMiddleware true jv { xAuthToken := none, user := u } =
      MwResult.respond 401 "No token, authorization denied") :=
  ⟨fun _ => rfl, fun _ => rfl, fun _ _ _ => rfl, fun _ _ => rfl⟩

/-- C2 counterexample: an error named MongoError is answered with HTTP 200,
not 500, so it is not the case that every throwing request yields 500. -/
theorem c2_mongo_error_gets_200 :
    (errorHandler { name := "MongoError", message := "connection refused" }
      "production").status = 200 ∧ (200 : Nat) ≠ 500 :=
  ⟨rfl, by decide⟩

/-- C2 (amended): every thrown error is logged and answered with HTTP 500
and a generic message — a controller catch block replies 500 "Server error"
for every error, and the global error middleware replies 500
"Something went wrong!" — except when an error named MongoError or
MongoNetworkError reaches the global middleware, which answers it with
HTTP 200 and a warning; validation failures always carry 400. -/
theorem c2_error_handler_behaviour :
    (∀ err, privacyCatchHandler err =
      { status := 500, message := "Server error", detail := some err.message }) ∧
    (∀ err nodeEnv, (errorHandler err nodeEnv).status =
      if err.name = "MongoError" ∨ err.name = "MongoNetworkError" then 200 else 500) ∧
    (∀ err nodeEnv, (errorHandler err nodeEnv).status = 500 →
      (errorHandler err nodeEnv).message = "Something went wrong!") ∧
    (∀ uid st s m, generateProof uid st = GenOutcome.reject s m → s = 400) := by
  refine ⟨fun err => rfl, ?_, ?_, fun uid st s m h => generateProof_reject_status uid st s m h⟩
  · intro err nodeEnv
    unfold errorHandler
    split_ifs <;> rfl
  · intro err nodeEnv h
    unfold errorHandler at h ⊢
    split_ifs at h ⊢ <;> simp_all

/-- C2 witness: the amended theorem applied to a MongoError caught by a
controller (answered 500 "Server error") and to a concrete non-Mongo error
reaching the global middleware in production mode. -/
theorem c2_error_handler_behaviour_witness :
    privacyCatchHandler { name := "MongoError", message := "boom" } =
      { status := 500, message := "Server error", detail := some "boom" } ∧
    (errorHandler { name := "TypeError", message := "boom" } "production").status = 500 ∧
    (errorHandler { name := "TypeError", message := "boom" } "production").message =
      "Something went wrong!" := by
  have h := c2_error_handler_behaviour
  have hs : (errorHandler { name := "TypeError", message := "boom" } "production").status = 500 := by
    rw [h.2.1 { name := "TypeError", message := "boom" } "production"]; decide
  exact ⟨h.1 { name := "MongoError", message := "boom" }, hs,
    h.2.2.1 { name := "TypeError", message := "boom" } "production" hs⟩

/-- The concrete range statement of the C3 counterexample: numeric value 0
with numeric bounds 1 < 10. -/
def zeroValueRangeStmt : StatementObj :=
  { stype := some "range", value := JField.num 0, min := JField.num 1, max := JField.num 10 }

/-- C3 counterexample: a range statement with numeric value 0 and numeric
bounds 1 < 10 is rejected with HTTP 400 by the code, although the claim says
such a statement (value 0 included) is forwarded to the proof service. -/
theorem c3_zero_value_rejected :
    claimRejects (some zeroValueRangeStmt) = false ∧
    generateProof "demo_user_123" (some zeroValueRangeStmt) =
      GenOutcome.reject 400 "Valid numeric value is required for range proof" := by
  constructor
  · decide
  · decide

/-- C3 (amended): the endpoint rejects with 400 exactly when the statement is
missing, its type is neither equality nor range, a required numeric field
(value for equality; value, min and max for range) is missing, non-numeric
or equal to 0 (JavaScript falsiness), or min >= max after conversion; every
range statement with nonzero numeric value, min and max satisfying min < max
is forwarded to the proof service. -/
theorem c3_validation_exact (userId : String) (st : Option StatementObj) :
    ((∃ s m, generateProof userId st = GenOutcome.reject s m) ↔ codeRejects st = true) ∧
    (∀ s m, generateProof userId st = GenOutcome.reject s m → s = 400) ∧
    (∀ v lo hi : ℚ,
      st = some ⟨some "range", JField.num v, JField.num lo, JField.num hi⟩ →
      v ≠ 0 → lo ≠ 0 → hi ≠ 0 → lo < hi →
      generateProof userId st = GenOutcome.forward (ProofCall.rangeCall userId v lo hi)) := by
  refine ⟨?_, fun s m h => generateProof_reject_status userId st s m h, ?_⟩
  · cases st with
    | none => simp [generateProof, codeRejects]
    | some stmt =>
      simp only [generateProof, codeRejects]
      split_ifs <;> simp_all [JField.failsCheck] <;> tauto
  · intro v lo hi hst hv hlo hhi hlt
    subst hst
    simp [generateProof, JField.failsCheck, JField.toQ, hv, hlo, hhi, not_le.mpr hlt]

/-- C3 witness: the amended theorem applied to the missing-statement input
and to a concrete valid range statement. -/
theorem c3_validation_exact_witness :
    (∃ s m, generateProof "demo_user_123" none = GenOutcome.reject s m ∧ s = 400) ∧
    generateProof "demo_user_123"
      (some ⟨some "range", JField.num 750, JField.num 700, JField.num 850⟩) =
      GenOutcome.forward (ProofCall.rangeCall "demo_user_123" 750 700 850) := by
  constructor
  · obtain ⟨s, m, h⟩ := (c3_validation_exact "demo_user_123" none).1.mpr (by decide)
    exact ⟨s, m, h, (c3_validation_exact "demo_user_123" none).2.1 s m h⟩
  · exact (c3_validation_exact "demo_user_123" _).2.2 750 700 850 rfl
      (by norm_num) (by norm_num) (by norm_num) (by norm_num)

end Aries

namespace Aries

/-! ### Privacy service: in-memory ZK-proof store (backend privacy.service.js) -/

/-- The statement object handed to `generateZKProof` (type, condition and
threshold are the fields the service echoes back and uses for the public
signals). -/
structure ZKStatement where
  stype : Option String
  condition : Option String
  threshold : Option ℚ
deriving DecidableEq

/-- A proof record as stored in the process-local `mockProofs` object.
The constant groth16 placeholder arrays (`pi_a`, `pi_b`, `pi_c`) and the
verification key are fixed string literals in the source and are elided
here; timestamps are milliseconds since the epoch. -/
structure StoredProof where
  id : String
  userId : String
  statement : ZKStatement
  createdAt : ℤ
  expiresAt : ℤ
deriving DecidableEq

/-- The process-local proof store `mockProofs`, keyed by proof id. -/
def ProofStore := String → Option StoredProof

/-- 30 days in milliseconds: the proof lifetime added to `Date.now()`. -/
def thirtyDaysMs : ℤ := 30 * 24 * 60 * 60 * 1000

/-- The result object `generateZKProof` resolves with. -/
structure GenProofResult where
  success : Bool
  proofId : String
  statement : ZKStatement
  createdAt : ℤ
  expiresAt : ℤ
  shareableLink : String
deriving DecidableEq

/-- `generateZKProof`: fabricates a proof id from `Date.now()` and a random
draw below 10000, stores the proof in `mockProofs` with a 30-day expiry, and
resolves with success. `now` is the `Date.now()` timestamp and `rand` the
value of `Math.floor(Math.random() * 10000)`. -/
def generateZKProof (store : ProofStore) (userId : String) (st : ZKStatement)
    (now : ℤ) (rand : ℕ) : GenProofResult × ProofStore :=
  let proofId := "proof_" ++ toString now ++ "_" ++ toString rand
  let proof : StoredProof :=
    { id := proofId, userId := userId, statement := st
      createdAt := now, expiresAt := now + thirtyDaysMs }
  ({ success := true
     proofId := proofId
     statement := st
     createdAt := now
     expiresAt := now + thirtyDaysMs
     shareableLink := "https://aries.finance/verify/" ++ proofId },
   fun k => if k = proofId then some proof else store k)

/-- The result object `verifyZKProof` resolves with (`verified` is absent on
the failure paths in the source; it is modelled as false there). -/
structure VerifyResult where
  success : Bool
  verified : Bool
  statement : Option ZKStatement
  error : Option String
  expiresAt : Option ℤ
deriving DecidableEq

/-- `verifyZKProof`: proof missing from the store fails with "Proof not
found"; an expired proof (expiresAt strictly before now) fails with "Proof
has expired"; otherwise verification always succeeds in this demo. -/
def verifyZKProof (store : ProofStore) (proofId : String) (now : ℤ) : VerifyResult :=
  match store proofId with
  | none =>
    { success := false, verified := false, statement := none
      error := some "Proof not found", expiresAt := none }
  | some proof =>
    if proof.expiresAt < now then
      { success := false, verified := false, statement := none
        error := some "Proof has expired", expiresAt := some proof.expiresAt }
    else
      { success := true, verified := true, statement := some proof.statement
        error := none, expiresAt := some proof.expiresAt }

/-- The result object `revokeZKProof` resolves with. -/
structure RevokeResult where
  success : Bool
  error : Option String
  message : Option String
deriving DecidableEq

/-- `revokeZKProof`: fails when the proof is missing, fails without touching
the store when the caller does not own the proof, and otherwise deletes the
proof from the store. -/
def revokeZKProof (store : ProofStore) (userId : String) (proofId : String) :
    RevokeResult × ProofStore :=
  match store proofId with
  | none =>
    ({ success := false, error := some "Proof not found", message := none }, store)
  | some proof =>
    if proof.userId ≠ userId then
      ({ success := false, error := some "Unauthorized: You do not own this proof"
         message := none }, store)
    else
      ({ success := true, error := none, message := some "Proof revoked successfully" },
       fun k => if k = proofId then none else store k)

/-- C6 (confirmed): generating a proof stores it under the returned proofId,
and verifying that proofId at any time strictly before the proof's expiresAt
returns success and verified. -/
theorem c6_generate_then_verify (store : ProofStore) (userId : String)
    (st : ZKStatement) (now : ℤ) (rand : ℕ) (later : ℤ)
    (h : later < (generateZKProof store userId st now rand).1.expiresAt) :
    (generateZKProof store userId st now rand).2
        (generateZKProof store userId st now rand).1.proofId = some
      { id := (generateZKProof store userId st now rand).1.proofId
        userId := userId, statement := st
        createdAt := now, expiresAt := now + thirtyDaysMs } ∧
    verifyZKProof (generateZKProof store userId st now rand).2
        (generateZKProof store userId st now rand).1.proofId later =
      { success := true, verified := true, statement := some st
        error := none, expiresAt := some (now + thirtyDaysMs) } := by
  simp only [generateZKProof] at h ⊢
  refine ⟨by simp, ?_⟩
  have hexp : ¬ (now + thirtyDaysMs < later) := lt_asymm h
  simp [verifyZKProof, hexp]

/-- C6 witness: a concrete round trip through an empty store, verified one
second after generation. -/
theorem c6_generate_then_verify_witness :
    verifyZKProof
        (generateZKProof (fun _ => none) "demo_user_123"
          ⟨some "creditScore", some "greaterThan", some 700⟩ 0 42).2
        (generateZKProof (fun _ => none) "demo_user_123"
          ⟨some "creditScore", some "greaterThan", some 700⟩ 0 42).1.proofId 1000 =
      { success := true, verified := true
        statement := some ⟨some "creditScore", some "greaterThan", some 700⟩
        error := none, expiresAt := some (0 + thirtyDaysMs) } :=
  (c6_generate_then_verify (fun _ => none) "demo_user_123"
    ⟨some "creditScore", some "greaterThan", some 700⟩ 0 42 1000 (by decide)).2

/-- C9 (confirmed): revocation is owner-only and atomic. A non-owner
revocation fails and leaves the store untouched (so verification results are
unchanged); an owner revocation succeeds, removes the proof, and every later
verification of that proofId fails with "Proof not found". -/
theorem c9_revoke_owner_only (store : ProofStore) (caller proofId : String)
    (p : StoredProof) (h : store proofId = some p) :
    (p.userId ≠ caller →
      (revokeZKProof store caller proofId).1 =
        { success := false, error := some "Unauthorized: You do not own this proof"
          message := none } ∧
      (revokeZKProof store caller proofId).2 = store) ∧
    (p.userId = caller →
      (revokeZKProof store caller proofId).1 =
        { success := true, error := none, message := some "Proof revoked successfully" } ∧
      (revokeZKProof store caller proofId).2 proofId = none ∧
      ∀ t, verifyZKProof (revokeZKProof store caller proofId).2 proofId t =
        { success := false, verified := false, statement := none
          error := some "Proof not found", expiresAt := none }) := by
  constructor
  · intro hne
    simp [revokeZKProof, h, hne]
  · intro hown
    refine ⟨?_, ?_, fun t => ?_⟩ <;> simp [revokeZKProof, verifyZKProof, h, hown]

/-- A concrete stored proof owned by demo_user_123, for the C9 witness. -/
def demoProof : StoredProof :=
  { id := "proof_0_42", userId := "demo_user_123"
    statement := ⟨some "creditScore", some "greaterThan", some 700⟩
    createdAt := 0, expiresAt := thirtyDaysMs }

/-- A concrete one-proof store, for the C9 witness. -/
def demoStore : ProofStore :=
  fun k => if k = "proof_0_42" then some demoProof else none

/-- C9 witness: a concrete store holding one proof owned by demo_user_123;
an intruder's revocation fails and leaves the proof verifiable, the owner's
revocation removes it. -/
theorem c9_revoke_owner_only_witness :
    ((revokeZKProof demoStore "intruder" "proof_0_42").1.success = false ∧
      (revokeZKProof demoStore "intruder" "proof_0_42").2 = demoStore) ∧
    ((revokeZKProof demoStore "demo_user_123" "proof_0_42").1.success = true ∧
      verifyZKProof (revokeZKProof demoStore "demo_user_123" "proof_0_42").2
          "proof_0_42" 1000 =
        { success := false, verified := false, statement := none
          error := some "Proof not found", expiresAt := none }) := by
  have h1 := (c9_revoke_owner_only demoStore "intruder" "proof_0_42" demoProof rfl).1
    (by decide)
  have h2 := (c9_revoke_owner_only demoStore "demo_user_123" "proof_0_42" demoProof rfl).2
    (by decide)
  exact ⟨⟨by rw [h1.1], h1.2⟩, ⟨by rw [h2.1], h2.2.2 1000⟩⟩

end Aries

namespace Aries

/-! ### NFT minting (contract.service.js and blockchain.service.js) -/

/-- Digit character for bases up to 36, as JavaScript's Number.toString
produces them (0-9 then a-z). -/
def digitChar36 (d : ℕ) : Char :=
  if d < 10 then Char.ofNat (48 + d) else Char.ofNat (87 + d)

/-- The fractional hexadecimal digits of a draw in [0,1), as produced by
`Math.random().toString(16).substring(2)`: idealised to the 13 hex digits a
double prints. -/
def hexFrac (q : ℚ) : String :=
  String.mk (((Nat.digits 16 (⌊q * 16 ^ 13⌋.toNat)).reverse).map digitChar36)

/-- The fractional base-36 digits of a draw in [0,1), as produced by
`Math.random().toString(36).substring(2, 10)`: the 8 digits after the point. -/
def base36Frac (q : ℚ) : String :=
  String.mk (((Nat.digits 36 (⌊q * 36 ^ 8⌋.toNat)).reverse).map digitChar36)

/-- Result of the contract service's `mintCreditScoreNFT` (the metadata
attributes are echoes of tokenId, score and rating and are folded into the
named fields here). -/
structure ContractMintResult where
  success : Bool
  tokenId : ℤ
  address : String
  score : ℚ
  txHash : String
  imageUrl : String
  metadataName : String
  rating : String
deriving DecidableEq

/-- The contract service's `mintCreditScoreNFT`: always fabricates a token id
from one random draw and a placeholder transaction hash from another, and
resolves with success. `r1` and `r2` are the two `Math.random()` draws. -/
def mintCreditScoreNFT (address : String) (score : ℚ) (r1 r2 : ℚ) : ContractMintResult :=
  let tokenId : ℤ := ⌊r1 * 1000000⌋
  let txHash := "0x" ++ hexFrac r2
  { success := true
    tokenId := tokenId
    address := address
    score := score
    txHash := txHash
    imageUrl := "https://api.dicebear.com/7.x/shapes/svg?seed=" ++ address ++ toString score
    metadataName := "Credit Score NFT #" ++ toString tokenId
    rating :=
      if score ≥ 800 then "Excellent"
      else if score ≥ 700 then "Good"
      else if score ≥ 600 then "Fair"
      else "Poor" }

/-- The data a successful real on-chain mint would return (transaction
receipt fields), produced by ethers.js and therefore a parameter here. -/
structure ChainMint where
  tokenId : String
  tokenUri : String
  txHash : String
  blockNumber : ℤ
deriving DecidableEq

/-- Result of the blockchain service's `mintCreditScoreNFT`. The real path
has no `simulated` field in the source (undefined); it is modelled as
false. -/
structure ChainMintResult where
  success : Bool
  simulated : Bool
  tokenId : String
  tokenUri : String
  txHash : String
  blockNumber : ℤ
  walletAddress : String
  creditScore : ℚ
deriving DecidableEq

/-- The blockchain service's `mintCreditScoreNFT`: the whole body sits in a
try/catch whose `attempt` parameter bundles everything that can throw
(uninitialised contract, invalid address, metadata upload, the mint
transaction). On any error the catch block returns a simulated success with
fabricated artifacts: tokenId from `Date.now()`, a 64-hex-digit random
transaction hash, and a constant block number. -/
def mintCreditScoreNFTChain (walletAddress : String) (creditScore : ℚ)
    (attempt : Except String ChainMint) (now : ℤ) (rng : ℕ → ℚ) : ChainMintResult :=
  match attempt with
  | Except.ok receipt =>
    { success := true, simulated := false
      tokenId := receipt.tokenId, tokenUri := receipt.tokenUri
      txHash := receipt.txHash, blockNumber := receipt.blockNumber
      walletAddress := walletAddress, creditScore := creditScore }
  | Except.error _ =>
    { success := true, simulated := true
      tokenId := toString now
      tokenUri := "ipfs://QmSimulated" ++ toString now
      txHash := "0x" ++ String.mk ((List.range 64).map (fun i => digitChar36 (⌊rng i * 16⌋.toNat % 16)))
      blockNumber := 12345678
      walletAddress := walletAddress, creditScore := creditScore }

/-- C7 (confirmed): for every wallet address and credit score both
NFT-minting operations resolve with success and never with a failure
result; the contract service's artifacts are fabricated placeholders —
they depend only on the random draws, not on the address or score — and
when the real on-chain mint throws, the blockchain service resolves with a
simulated success whose artifacts likewise do not depend on the wallet or
score. -/
theorem c7_mint_never_fails :
    (∀ address score r1 r2, (mintCreditScoreNFT address score r1 r2).success = true) ∧
    (∀ a a' s s' r1 r2,
      (mintCreditScoreNFT a s r1 r2).tokenId = (mintCreditScoreNFT a' s' r1 r2).tokenId ∧
      (mintCreditScoreNFT a s r1 r2).txHash = (mintCreditScoreNFT a' s' r1 r2).txHash) ∧
    (∀ w c attempt now rng, (mintCreditScoreNFTChain w c attempt now rng).success = true) ∧
    (∀ w w' c c' e e' now rng,
      (mintCreditScoreNFTChain w c (Except.error e) now rng).simulated = true ∧
      (mintCreditScoreNFTChain w c (Except.error e) now rng).txHash =
        (mintCreditScoreNFTChain w' c' (Except.error e') now rng).txHash ∧
      (mintCreditScoreNFTChain w c (Except.error e) now rng).tokenId =
        (mintCreditScoreNFTChain w' c' (Except.error e') now rng).tokenId) := by
  refine ⟨fun _ _ _ _ => rfl, fun _ _ _ _ _ _ => ⟨rfl, rfl⟩, ?_, fun _ _ _ _ _ _ _ _ => ⟨rfl, rfl, rfl⟩⟩
  intro w c attempt now rng
  cases attempt <;> rfl

/-! ### Wallet risk analysis (risk.service.js, analyzeWalletRisk) -/

/-- A mock transaction from the hard-coded `mockTransactions` table
(timestamps elided: the analysis never reads them). -/
structure ChainTx where
  ttype : String
  contract : String
  value : ℚ
deriving DecidableEq

/-- The high-risk wallet's mock transactions. -/
def highRiskTransactions : List ChainTx :=
  [ ⟨"swap", "0xdead1234567890123456789012345678901234567", 1/2⟩,
    ⟨"transfer", "0xdead2345678901234567890123456789012345678", 12/10⟩,
    ⟨"approve", "0xdead3456789012345678901234567890123456789", 10⟩,
    ⟨"swap", "0xdead4567890123456789012345678901234567890", 23/10⟩ ]

/-- The medium-risk wallet's mock transactions. -/
def mediumRiskTransactions : List ChainTx :=
  [ ⟨"swap", "0x1234567890123456789012345678901234567890", 1⟩,
    ⟨"transfer", "0xdead2345678901234567890123456789012345678", 1/2⟩,
    ⟨"approve", "0x2345678901234567890123456789012345678901", 5⟩ ]

/-- The low-risk wallet's mock transactions. -/
def lowRiskTransactions : List ChainTx :=
  [ ⟨"swap", "0x1234567890123456789012345678901234567890", 2/10⟩,
    ⟨"transfer", "0x2345678901234567890123456789012345678901", 3/10⟩,
    ⟨"approve", "0x3456789012345678901234567890123456789012", 1⟩ ]

/-- The hard-coded blacklist of high-risk contract addresses. -/
def blacklistedContracts : List String :=
  [ "0xdead1234567890123456789012345678901234567",
    "0xdead2345678901234567890123456789012345678",
    "0xdead3456789012345678901234567890123456789",
    "0xdead4567890123456789012345678901234567890" ]

/-- The `mockTransactions` lookup table keyed by wallet address. -/
def mockTransactionsFor (address : String) : Option (List ChainTx) :=
  if address = "0x8915BEab6cCaA2F486d8B1C36c7ec151F9C72F5E" then some highRiskTransactions
  else if address = "0x7825BEab6cCaA2F486d8B1C36c7ec151F9C72F5E" then some mediumRiskTransactions
  else if address = "0x6735BEab6cCaA2F486d8B1C36c7ec151F9C72F5E" then some lowRiskTransactions
  else none

/-- Transaction selection in `analyzeWalletRisk`: the table entry when the
address is known; otherwise a random pick (draw below 0.3: low-risk list,
below 0.7: medium, else high). -/
def selectTransactions (address : String) (rSelect : ℚ) : List ChainTx :=
  match mockTransactionsFor address with
  | some txs => txs
  | none =>
    if rSelect < 3/10 then lowRiskTransactions
    else if rSelect < 7/10 then mediumRiskTransactions
    else highRiskTransactions

/-- Number of transactions touching blacklisted contracts. -/
def blacklistedCount (txs : List ChainTx) : ℕ :=
  (txs.filter (fun t => blacklistedContracts.contains t.contract)).length

/-- The share (percent) of transactions touching blacklisted contracts. -/
def riskPercentage (txs : List ChainTx) : ℚ :=
  (blacklistedCount txs : ℚ) / (txs.length : ℚ) * 100

/-- JavaScript's `Math.round`, on rationals: floor of x + 1/2. -/
def jsRound (q : ℚ) : ℤ := ⌊q + 1/2⌋

/-- A risk factor entry of the analysis result. -/
structure RiskFactor where
  factor : String
  description : String
  impact : String
deriving DecidableEq

/-- The three hard-coded `additionalFactors` used to pad the factor list. -/
def additionalFactors : List RiskFactor :=
  [ ⟨"New Wallet", "Wallet created less than 30 days ago", "Low"⟩,
    ⟨"Mixing Services", "Transactions associated with crypto mixing services", "High"⟩,
    ⟨"Unverified Contracts", "Interactions with unverified smart contracts", "Medium"⟩ ]

/-- The risk-analysis result (the constant `recommendations` array and the
analysis date are elided). -/
structure RiskAnalysisResult where
  address : String
  riskLevel : String
  riskScore : ℤ
  totalTransactions : ℕ
  suspicious : ℕ
  riskFactors : List RiskFactor
deriving DecidableEq

/-- `analyzeWalletRisk`: selects a transaction list, computes the share of
blacklisted interactions, picks riskLevel and a raw score 80 + r*20 /
50 + r*30 / 20 + r*30 by the 50% and 20% thresholds, rounds the score, and
assembles the factor list (padding with one random additional factor when
fewer than two code-driven factors fired). `rSelect`, `rScore` and `rFactor`
are the three `Math.random()` draws. -/
def analyzeWalletRisk (address : String) (rSelect rScore rFactor : ℚ) : RiskAnalysisResult :=
  let transactions := selectTransactions address rSelect
  let blacklistedInteractions := blacklistedCount transactions
  let pct := riskPercentage transactions
  let riskLevel := if pct ≥ 50 then "High" else if pct ≥ 20 then "Medium" else "Low"
  let rawScore : ℚ :=
    if pct ≥ 50 then 80 + rScore * 20
    else if pct ≥ 20 then 50 + rScore * 30
    else 20 + rScore * 30
  let codeFactors :=
    (if blacklistedInteractions > 0 then
      [⟨"Blacklisted Contracts",
        "Interacted with " ++ toString blacklistedInteractions ++ " known high-risk contracts",
        "High"⟩]
     else []) ++
    (if transactions.any (fun t => t.value > 5) then
      [(⟨"Large Transactions", "Multiple high-value transactions detected", "Medium"⟩ : RiskFactor)]
     else []) ++
    (if (transactions.filter (fun t => t.ttype = "approve")).length > 2 then
      [(⟨"Multiple Approvals", "Granted approval to multiple contracts", "Medium"⟩ : RiskFactor)]
     else [])
  let riskFactors :=
    if codeFactors.length < 2 then
      let randomFactor := additionalFactors.getD (⌊rFactor * 3⌋.toNat) ⟨"", "", ""⟩
      if codeFactors.any (fun f => f.factor = randomFactor.factor) then codeFactors
      else codeFactors ++ [randomFactor]
    else codeFactors
  { address := address
    riskLevel := riskLevel
    riskScore := jsRound rawScore
    totalTransactions := transactions.length
    suspicious := blacklistedInteractions
    riskFactors := riskFactors }

end Aries

namespace Aries

/-- Bounds for JavaScript rounding: if an exact score lies in [a, b) with
integer endpoints, the rounded score lies in [a, b]. -/
lemma jsRound_bounds (a b : ℤ) (x : ℚ) (ha : (a : ℚ) ≤ x) (hb : x < (b : ℚ)) :
    a ≤ jsRound x ∧ jsRound x ≤ b := by
  constructor
  · exact Int.le_floor.mpr (by push_cast; linarith)
  · have hlt : jsRound x < b + 1 := Int.floor_lt.mpr (by push_cast; linarith)
    omega

/-- C8 (confirmed): for every analyzed address and every outcome of the
random choices, the rounded riskScore lies in [20, 100], and the riskLevel
is driven by the share of transactions touching blacklisted contracts:
High with score in [80, 100] when the share is at least 50 percent, Medium
with score in [50, 80] when it is at least 20 percent, Low with score in
[20, 50] otherwise. -/
theorem c8_risk_level_and_score (address : String) (rSelect rScore rFactor : ℚ)
    (h0 : 0 ≤ rScore) (h1 : rScore < 1) :
    (20 ≤ (analyzeWalletRisk address rSelect rScore rFactor).riskScore ∧
      (analyzeWalletRisk address rSelect rScore rFactor).riskScore ≤ 100) ∧
    (riskPercentage (selectTransactions address rSelect) ≥ 50 →
      (analyzeWalletRisk address rSelect rScore rFactor).riskLevel = "High" ∧
      80 ≤ (analyzeWalletRisk address rSelect rScore rFactor).riskScore ∧
      (analyzeWalletRisk address rSelect rScore rFactor).riskScore ≤ 100) ∧
    (¬ riskPercentage (selectTransactions address rSelect) ≥ 50 →
      riskPercentage (selectTransactions address rSelect) ≥ 20 →
      (analyzeWalletRisk address rSelect rScore rFactor).riskLevel = "Medium" ∧
      50 ≤ (analyzeWalletRisk address rSelect rScore rFactor).riskScore ∧
      (analyzeWalletRisk address rSelect rScore rFactor).riskScore ≤ 80) ∧
    (¬ riskPercentage (selectTransactions address rSelect) ≥ 50 →
      ¬ riskPercentage (selectTransactions address rSelect) ≥ 20 →
      (analyzeWalletRisk address rSelect rScore rFactor).riskLevel = "Low" ∧
      20 ≤ (analyzeWalletRisk address rSelect rScore rFactor).riskScore ∧
      (analyzeWalletRisk address rSelect rScore rFactor).riskScore ≤ 50) := by
  have hHigh := jsRound_bounds 80 100 (80 + rScore * 20)
    (by push_cast; linarith) (by push_cast; linarith)
  have hMed := jsRound_bounds 50 80 (50 + rScore * 30)
    (by push_cast; linarith) (by push_cast; linarith)
  have hLow := jsRound_bounds 20 50 (20 + rScore * 30)
    (by push_cast; linarith) (by push_cast; linarith)
  by_cases hp1 : riskPercentage (selectTransactions address rSelect) ≥ 50
  · refine ⟨⟨?_, ?_⟩, fun _ => ⟨?_, ?_, ?_⟩, fun hn _ => absurd hp1 hn,
      fun hn _ => absurd hp1 hn⟩ <;> simp [analyzeWalletRisk, hp1] <;> omega
  · by_cases hp2 : riskPercentage (selectTransactions address rSelect) ≥ 20
    · refine ⟨⟨?_, ?_⟩, fun h => absurd h hp1, fun _ _ => ⟨?_, ?_, ?_⟩,
        fun _ hn => absurd hp2 hn⟩ <;> simp [analyzeWalletRisk, hp1, hp2] <;> omega
    · refine ⟨⟨?_, ?_⟩, fun h => absurd h hp1, fun _ h => absurd h hp2,
        fun _ _ => ⟨?_, ?_, ?_⟩⟩ <;> simp [analyzeWalletRisk, hp1, hp2] <;> omega

/-- C8 witness: the hard-coded high-risk wallet (all four transactions touch
blacklisted contracts) with random score draw one half. -/
theorem c8_risk_level_and_score_witness :
    (analyzeWalletRisk "0x8915BEab6cCaA2F486d8B1C36c7ec151F9C72F5E" 0 (1/2) 0).riskLevel =
      "High" ∧
    80 ≤ (analyzeWalletRisk "0x8915BEab6cCaA2F486d8B1C36c7ec151F9C72F5E" 0 (1/2) 0).riskScore ∧
    (analyzeWalletRisk "0x8915BEab6cCaA2F486d8B1C36c7ec151F9C72F5E" 0 (1/2) 0).riskScore ≤ 100 :=
  (c8_risk_level_and_score "0x8915BEab6cCaA2F486d8B1C36c7ec151F9C72F5E" 0 (1/2) 0
    (by norm_num) (by norm_num)).2.1
    (by norm_num [riskPercentage, selectTransactions, mockTransactionsFor, blacklistedCount,
      highRiskTransactions, blacklistedContracts, List.filter, List.contains])

/-! ### Mock banking transactions (mock-banking.service.js) -/

/-- The hard-coded transaction categories. -/
def bankCategories : List String :=
  ["Groceries", "Dining", "Shopping", "Transportation", "Entertainment",
   "Utilities", "Health", "Travel"]

/-- The hard-coded merchants. -/
def bankMerchants : List String :=
  ["Whole Foods", "Amazon", "Uber", "Netflix", "Target", "Starbucks",
   "CVS Pharmacy", "AT&T", "Gas Station"]

/-- JavaScript's `toFixed(2)` idealised as rounding to cents (the source
additionally turns debit amounts back into numbers via unary minus while
credits stay strings; both are modelled as rationals). -/
def toFixed2 (q : ℚ) : ℚ := (jsRound (q * 100) : ℚ) / 100

/-- One generated mock bank transaction. -/
structure BankTx where
  id : String
  accountId : String
  amount : ℚ
  date : ℤ
  description : String
  category : String
  status : String
  ttype : String
deriving DecidableEq

/-- The generation loop of `getAccountTransactions`: `n` iterations remain,
`i` is the loop index (driving the 2-days-ago stride), and `pos` is the
position in the `Math.random()` stream (a debit iteration consumes five
draws: isDebit, amount, id, merchant, category; a credit consumes three). -/
def genBankTxs (accountId : String) (now : ℤ) (rng : ℕ → ℚ) :
    ℕ → ℕ → ℕ → List BankTx
  | 0, _, _ => []
  | n + 1, i, pos =>
    let isDebit := rng pos > 3/10
    let rawAmount :=
      if isDebit then toFixed2 (rng (pos + 1) * 200 + 5)
      else toFixed2 (rng (pos + 1) * 2000 + 500)
    let tx : BankTx :=
      { id := "tx-" ++ base36Frac (rng (pos + 2))
        accountId := accountId
        amount := if isDebit then -rawAmount else rawAmount
        date := now - (i : ℤ) * 2 * 86400000
        description :=
          if isDebit then bankMerchants.getD (⌊rng (pos + 3) * 9⌋.toNat) "" else "Deposit"
        category :=
          if isDebit then bankCategories.getD (⌊rng (pos + 4) * 8⌋.toNat) "" else "Income"
        status := "posted"
        ttype := if isDebit then "debit" else "credit" }
    tx :: genBankTxs accountId now rng n (i + 1) (pos + if isDebit then 5 else 3)

/-- The options object of `getAccountTransactions`; dateFrom, dateTo and
type are destructured by the source but never used. -/
structure TxOptions where
  limit : Option ℕ
  dateFrom : Option String
  dateTo : Option String
  ttype : Option String
deriving DecidableEq

/-- The result page of `getAccountTransactions`. -/
structure TxPage where
  accountId : String
  transactions : List BankTx
  totalCount : ℕ
  moreAvailable : Bool
deriving DecidableEq

/-- `getAccountTransactions` of the mock banking service: generates exactly
`limit` (default 20) random transactions, reports their count as totalCount,
and always reports moreAvailable false; none of the date or type options
participate. -/
def getAccountTransactions (userId accountId : String) (options : TxOptions)
    (now : ℤ) (rng : ℕ → ℚ) : TxPage :=
  let limit := options.limit.getD 20
  let transactions := genBankTxs accountId now rng limit 0 0
  { accountId := accountId
    transactions := transactions
    totalCount := transactions.length
    moreAvailable := false }

/-- The generation loop produces exactly as many transactions as requested,
from any loop index and stream position. -/
lemma genBankTxs_length (accountId : String) (now : ℤ) (rng : ℕ → ℚ) :
    ∀ n i pos, (genBankTxs accountId now rng n i pos).length = n := by
  intro n
  induction n with
  | zero => intro i pos; rfl
  | succ n ih => intro i pos; simp [genBankTxs, ih]

/-- C10 (confirmed): getAccountTransactions ignores its dateFrom, dateTo and
type options — two calls differing only in those fields return identical
pages — and every page has exactly limit (default 20) transactions,
totalCount equal to that limit, and moreAvailable false. -/
theorem c10_options_ignored (userId accountId : String) (o1 o2 : TxOptions)
    (now : ℤ) (rng : ℕ → ℚ) (h : o1.limit = o2.limit) :
    getAccountTransactions userId accountId o1 now rng =
      getAccountTransactions userId accountId o2 now rng ∧
    (getAccountTransactions userId accountId o1 now rng).transactions.length =
      o1.limit.getD 20 ∧
    (getAccountTransactions userId accountId o1 now rng).totalCount = o1.limit.getD 20 ∧
    (getAccountTransactions userId accountId o1 now rng).moreAvailable = false := by
  refine ⟨?_, ?_, ?_, rfl⟩
  · simp only [getAccountTransactions, h]
  · simp [getAccountTransactions, genBankTxs_length]
  · simp [getAccountTransactions, genBankTxs_length]

/-- Options carrying date and type filters, for the C10 witness. -/
def optionsWithFilters : TxOptions :=
  ⟨some 2, some "2025-01-01", some "2025-04-01", some "debit"⟩

/-- The same options without any filters, for the C10 witness. -/
def optionsPlain : TxOptions := ⟨some 2, none, none, none⟩

/-- C10 witness: two concrete calls differing only in the date and type
filters return identical pages of exactly two transactions. -/
theorem c10_options_ignored_witness :
    getAccountTransactions "user1" "acc-1" optionsWithFilters 0 (fun _ => 1/2) =
      getAccountTransactions "user1" "acc-1" optionsPlain 0 (fun _ => 1/2) ∧
    (getAccountTransactions "user1" "acc-1" optionsWithFilters 0
      (fun _ => 1/2)).transactions.length = 2 :=
  ⟨(c10_options_ignored "user1" "acc-1" optionsWithFilters optionsPlain 0
      (fun _ => 1/2) rfl).1,
   (c10_options_ignored "user1" "acc-1" optionsWithFilters optionsPlain 0
      (fun _ => 1/2) rfl).2.1⟩

end Aries

namespace Aries

/-! ### Volatility metrics and Value at Risk (risk.service.js)

JavaScript numbers are idealised as real numbers here because the source
uses `Math.sqrt`; the definitions in this section are therefore
noncomputable. -/

/-- The daily-returns loop of `calculateVolatilityMetrics`, carrying the
previous price: for each i from 1, push (p_i - p_(i-1)) / p_(i-1). -/
noncomputable def dailyReturnsFrom (prev : ℝ) : List ℝ → List ℝ
  | [] => []
  | p :: rest => (p - prev) / prev :: dailyReturnsFrom p rest

/-- The daily returns of a price series, as the source loop computes them. -/
noncomputable def dailyReturns : List ℝ → List ℝ
  | [] => []
  | p0 :: rest => dailyReturnsFrom p0 rest

/-- The result of `calculateVolatilityMetrics` (the echoed historical price
list and the analysis date are elided). -/
structure VolMetrics where
  currentPrice : ℝ
  volatilityDaily : ℝ
  volatilityAnnualized : ℝ
  volatilityLevel : String
  maxDrawdown : ℝ
  trend : String
  priceChangePct : ℝ

/-- `calculateVolatilityMetrics`: daily returns, their mean and population
variance, standard deviation as volatility, annualisation by the square
root of 365, the max-drawdown fold, the volatility level thresholds, and
the 5-point trend. `priceData` is the list of prices (the source's
timestamp fields are never used in the computation). -/
noncomputable def calculateVolatilityMetrics (priceData : List ℝ) : VolMetrics :=
  let returns := dailyReturns priceData
  let mean := returns.sum / (returns.length : ℝ)
  let variance := (returns.map (fun v => (v - mean) ^ 2)).sum / (returns.length : ℝ)
  let stdDev := Real.sqrt variance
  let annualizedVolatility := stdDev * Real.sqrt 365
  let peakDD := priceData.foldl
    (fun (acc : ℝ × ℝ) p =>
      let peak := if p > acc.1 then p else acc.1
      let drawdown := (peak - p) / peak
      (peak, if drawdown > acc.2 then drawdown else acc.2))
    (priceData.headD 0, 0)
  let volatilityLevel :=
    if annualizedVolatility > 1 then "Extreme"
    else if annualizedVolatility > 0.5 then "High"
    else if annualizedVolatility > 0.25 then "Medium"
    else "Low"
  let recentPrices := priceData.drop (priceData.length - 5)
  let priceChange :=
    (recentPrices.getLastD 0 - recentPrices.headD 0) / recentPrices.headD 0
  { currentPrice := priceData.getLastD 0
    volatilityDaily := stdDev
    volatilityAnnualized := annualizedVolatility
    volatilityLevel := volatilityLevel
    maxDrawdown := peakDD.2
    trend :=
      if priceChange > 0 then "Upward"
      else if priceChange < 0 then "Downward"
      else "Stable"
    priceChangePct := priceChange * 100 }

/-- Mean of a list of reals (spec side). -/
noncomputable def listMean (xs : List ℝ) : ℝ := xs.sum / (xs.length : ℝ)

/-- Population variance of a list of reals (spec side). -/
noncomputable def popVariance (xs : List ℝ) : ℝ :=
  ((xs.map (fun x => (x - listMean xs) ^ 2)).sum) / (xs.length : ℝ)

/-- Population standard deviation (spec side). -/
noncomputable def popStdDev (xs : List ℝ) : ℝ := Real.sqrt (popVariance xs)

/-- The claim's indexed daily-return formula r_i = (p_i - p_(i-1)) / p_(i-1)
(spec side, to be compared with the loop `dailyReturns`). -/
noncomputable def specReturns (prices : List ℝ) : List ℝ :=
  (List.range (prices.length - 1)).map
    (fun i => (prices.getD (i + 1) 0 - prices.getD i 0) / prices.getD i 0)

/-- Unfolding of the return-computing loop against the indexed formula. -/
lemma dailyReturnsFrom_eq (l : List ℝ) : ∀ prev : ℝ,
    dailyReturnsFrom prev l = (List.range l.length).map
      (fun i => ((prev :: l).getD (i + 1) 0 - (prev :: l).getD i 0) / (prev :: l).getD i 0) := by
  induction l with
  | nil => intro prev; rfl
  | cons p rest ih =>
    intro prev
    simp only [dailyReturnsFrom, List.length_cons, List.range_succ_eq_map, List.map_cons,
      List.map_map, List.getD_cons_zero, List.getD_cons_succ, Function.comp_def, ih p]

/-- The return-computing loop agrees with the claim's indexed formula. -/
lemma dailyReturns_eq_spec (prices : List ℝ) : dailyReturns prices = specReturns prices := by
  cases prices with
  | nil => rfl
  | cons p0 rest =>
    simp only [dailyReturns, specReturns, List.length_cons, Nat.add_sub_cancel,
      dailyReturnsFrom_eq]

end Aries

namespace Aries

/-- C4 (confirmed): for every price series with at least two points and
non-zero prices, volatilityDaily is the population standard deviation of
the daily returns r_i = (p_i - p_(i-1)) / p_(i-1), and
volatilityAnnualized is volatilityDaily times the square root of 365. -/
theorem c4_volatility_metrics (priceData : List ℝ) (h2 : 2 ≤ priceData.length)
    (hnz : ∀ p ∈ priceData, p ≠ 0) :
    (calculateVolatilityMetrics priceData).volatilityDaily =
      popStdDev (specReturns priceData) ∧
    (calculateVolatilityMetrics priceData).volatilityAnnualized =
      (calculateVolatilityMetrics priceData).volatilityDaily * Real.sqrt 365 := by
  constructor
  · simp only [calculateVolatilityMetrics, popStdDev, popVariance, listMean,
      dailyReturns_eq_spec]
  · rfl

/-- C4 witness: a concrete two-point series of non-zero prices. -/
theorem c4_volatility_metrics_witness :
    (calculateVolatilityMetrics [100, 110]).volatilityDaily =
      popStdDev (specReturns [100, 110]) ∧
    (calculateVolatilityMetrics [100, 110]).volatilityAnnualized =
      (calculateVolatilityMetrics [100, 110]).volatilityDaily * Real.sqrt 365 :=
  c4_volatility_metrics [100, 110] (by norm_num)
    (by intro p hp; fin_cases hp <;> norm_num)

/-- A portfolio holding handed to `calculateVaR`. -/
structure Holding where
  token : String
  amount : ℝ

/-- The per-token data `calculateVaR` obtains: the last mock price used in
the portfolio-value reduce (`pvPrice`, a fresh random draw for unknown
tokens), and the current price and daily volatility reported by
`getTokenVolatility` (for unknown tokens these come from freshly generated
random data, so they may differ from `pvPrice`). -/
structure TokenData where
  pvPrice : ℝ
  currentPrice : ℝ
  volatilityDaily : ℝ

/-- The portfolio-value reduce of `calculateVaR`. -/
noncomputable def portfolioValue (resolve : String → TokenData) (holdings : List Holding) : ℝ :=
  holdings.foldl (fun total h => total + h.amount * (resolve h.token).pvPrice) 0

/-- The simplified portfolio volatility of `calculateVaR`: square root of
the sum of squared (volatility times weight), with weight
amount * currentPrice / portfolioValue, ignoring correlations. -/
noncomputable def portfolioVolatility (resolve : String → TokenData)
    (holdings : List Holding) (pv : ℝ) : ℝ :=
  Real.sqrt (holdings.foldl
    (fun sum h =>
      sum + ((resolve h.token).volatilityDaily *
        (h.amount * (resolve h.token).currentPrice / pv)) ^ 2) 0)

/-- One VaR bucket of the report: absolute amount and percentage of the
portfolio value. -/
structure VaRBucket where
  amount : ℝ
  percentage : ℝ

/-- The report `calculateVaR` returns (the analysis date and the echoed
holdings list are elided). -/
structure VaRReport where
  portfolioValue : ℝ
  confidenceLevelPct : ℝ
  dailyVaR : VaRBucket
  weeklyVaR : VaRBucket
  monthlyVaR : VaRBucket
  riskLevel : String

/-- `calculateVaR`: z-score 2.326 exactly when the confidence level equals
0.99 and 1.645 otherwise, daily VaR = value * volatility * z, weekly and
monthly scaled by the square roots of 7 and 30, and percentages relative to
the portfolio value. The confidence level is a JSON number, modelled as a
rational so the strict equality test with 0.99 is exact. -/
noncomputable def calculateVaR (resolve : String → TokenData) (holdings : List Holding)
    (confidenceLevel : ℚ) : VaRReport :=
  let pv := portfolioValue resolve holdings
  let pvol := portfolioVolatility resolve holdings pv
  let zScore : ℝ := if confidenceLevel = 0.99 then 2.326 else 1.645
  let dailyVaR := pv * pvol * zScore
  let weeklyVaR := dailyVaR * Real.sqrt 7
  let monthlyVaR := dailyVaR * Real.sqrt 30
  { portfolioValue := pv
    confidenceLevelPct := (confidenceLevel : ℝ) * 100
    dailyVaR := ⟨dailyVaR, dailyVaR / pv * 100⟩
    weeklyVaR := ⟨weeklyVaR, weeklyVaR / pv * 100⟩
    monthlyVaR := ⟨monthlyVaR, monthlyVaR / pv * 100⟩
    riskLevel :=
      if dailyVaR / pv > 0.05 then "High"
      else if dailyVaR / pv > 0.02 then "Medium"
      else "Low" }

/-- C5 (confirmed): weekly and monthly VaR amounts are the daily amount
scaled by the square roots of 7 and 30, the daily amount is portfolio value
times portfolio volatility times z with z = 2.326 exactly when the
confidence level is 0.99 and 1.645 otherwise, and the same scaling holds
for the percentage fields. -/
theorem c5_var_scaling (resolve : String → TokenData) (holdings : List Holding)
    (confidenceLevel : ℚ) (hne : holdings ≠ []) :
    (calculateVaR resolve holdings confidenceLevel).weeklyVaR.amount =
      (calculateVaR resolve holdings confidenceLevel).dailyVaR.amount * Real.sqrt 7 ∧
    (calculateVaR resolve holdings confidenceLevel).monthlyVaR.amount =
      (calculateVaR resolve holdings confidenceLevel).dailyVaR.amount * Real.sqrt 30 ∧
    (calculateVaR resolve holdings confidenceLevel).dailyVaR.amount =
      (calculateVaR resolve holdings confidenceLevel).portfolioValue *
        portfolioVolatility resolve holdings
          (calculateVaR resolve holdings confidenceLevel).portfolioValue *
        (if confidenceLevel = 0.99 then 2.326 else 1.645) ∧
    (calculateVaR resolve holdings confidenceLevel).weeklyVaR.percentage =
      (calculateVaR resolve holdings confidenceLevel).dailyVaR.percentage * Real.sqrt 7 ∧
    (calculateVaR resolve holdings confidenceLevel).monthlyVaR.percentage =
      (calculateVaR resolve holdings confidenceLevel).dailyVaR.percentage * Real.sqrt 30 := by
  refine ⟨rfl, rfl, rfl, ?_, ?_⟩ <;> simp only [calculateVaR] <;> ring

/-- C5 witness: a concrete one-holding portfolio at the default 0.95
confidence level. -/
theorem c5_var_scaling_witness :
    (calculateVaR (fun _ => ⟨95000, 95000, 0.02⟩) [⟨"BTC", 2⟩] 0.95).weeklyVaR.amount =
      (calculateVaR (fun _ => ⟨95000, 95000, 0.02⟩) [⟨"BTC", 2⟩] 0.95).dailyVaR.amount *
        Real.sqrt 7 ∧
    (calculateVaR (fun _ => ⟨95000, 95000, 0.02⟩) [⟨"BTC", 2⟩] 0.95).monthlyVaR.amount =
      (calculateVaR (fun _ => ⟨95000, 95000, 0.02⟩) [⟨"BTC", 2⟩] 0.95).dailyVaR.amount *
        Real.sqrt 30 :=
  ⟨(c5_var_scaling (fun _ => ⟨95000, 95000, 0.02⟩) [⟨"BTC", 2⟩] 0.95 (by simp)).1,
   (c5_var_scaling (fun _ => ⟨95000, 95000, 0.02⟩) [⟨"BTC", 2⟩] 0.95 (by simp)).2.1⟩

end Aries
